import Mathlib

/-!
Shallow embedding of `src/mcp_simple_db_access/server.py` (MCP simple
database access server).

Strings are Lean `String`s; the Python string primitives used by the
server (`str.strip`, `str.upper`, `str.startswith`, slicing `s[a:-b]`)
are translated on the underlying character lists.  Collaborators (the
SQLite driver, the LlamaIndex/Ollama LLM client, the HTTP model-tag
endpoint, and `json.dumps`) are parameters gathered in an `Env`
record: a database read/write is a function from the SQL text to
`Except` (an exception message or a result), the LLM completion call is
a function from model and prompt to `Except`, and the JSON renderers
are opaque functions.  Each tool handler additionally returns the list
of SQL texts (resp. prompts) it handed to the collaborator, so that
"the statement was forwarded" and "the database was never called" are
statable.
-/

/-- Python whitespace for `str.strip` (space, tab, newline, CR, VT, FF). -/
def pyIsSpace (c : Char) : Bool :=
  c = ' ' || c = '\t' || c = '\n' || c = '\x0d' || c = '\x0b' || c = '\x0c'

/-- Python `s.strip()`: drop leading and trailing whitespace. -/
def pyStrip (s : String) : String :=
  ⟨(((s.data.dropWhile pyIsSpace).reverse).dropWhile pyIsSpace).reverse⟩

/-- ASCII uppercasing of one character (Python `str.upper` on the ASCII range). -/
def pyUpperChar (c : Char) : Char :=
  if 'a' ≤ c && c ≤ 'z' then Char.ofNat (c.toNat - 32) else c

/-- Python `s.upper()` (ASCII range; the SQL keywords checked are ASCII). -/
def pyUpper (s : String) : String :=
  ⟨s.data.map pyUpperChar⟩

/-- Python `s.startswith(pre)`. -/
def pyStartsWith (s pre : String) : Bool :=
  pre.data.isPrefixOf s.data

/-- Python slice `s[a:-b]` (for `a b ≥ 0`): keep the characters with index
`a ≤ i < len s - b`, clamped to the empty string when the range is empty. -/
def pySliceTo (s : String) (a b : Nat) : String :=
  ⟨(s.data.take (s.data.length - b)).drop a⟩

/-- A database row as returned by the driver: an association list from
column name to the rendered cell value (`aiosqlite.Row` turned into a dict). -/
abbrev Row := List (String × String)

/-- The collaborators of the server, at the interface boundary:
`dbRead` is `DatabaseManager.execute_query`, `dbWrite` is
`DatabaseManager.execute_write`, `acomplete` is `llm.acomplete` keyed by
the model name, `httpTags` is the parsed result of `GET /api/tags`
(the list of model names, or the network exception), and the `dump*`
fields model `json.dumps` at the three shapes the server feeds it. -/
structure Env where
  dbRead : String → Except String (List Row)
  dbWrite : String → Except String Int
  acomplete : String → String → Except String String
  httpTags : Except String (List String)
  dumpRows : List Row → String
  dumpTables : List (String × List Row) → String
  dumpSchemaInfo : List (String × List Row × String) → String

/-- The read-query admission gate of `query_database`:
`sql.strip().upper().startswith("SELECT")`. -/
def selectGate (sql : String) : Bool :=
  pyStartsWith (pyUpper (pyStrip sql)) "SELECT"

/-- The table-creation admission gate of `create_table`:
`schema_sql.strip().upper().startswith("CREATE TABLE")`. -/
def createTableGate (schema_sql : String) : Bool :=
  pyStartsWith (pyUpper (pyStrip schema_sql)) "CREATE TABLE"

/-- Tool `query_database(sql)`.  Returns the reply string together with the
list of SQL texts handed to `execute_query` (empty when the database was
never called).  A database exception is caught and rendered as
`"Database error: …"`. -/
def query_database (env : Env) (sql : String) : String × List String :=
  if ¬ selectGate sql then
    ("Error: Only SELECT queries are allowed for safety reasons.", [])
  else
    match env.dbRead sql with
    | .error e => ("Database error: " ++ e, [sql])
    | .ok results =>
      if results.isEmpty then
        ("Query executed successfully but returned no results.", [sql])
      else
        (env.dumpRows results, [sql])

/-- `n` occurs in `h`, then the remaining needles occur in the rest of `h`,
in order (disjoint occurrences, left to right). -/
def Appears : String → List String → Prop
  | _, [] => True
  | h, n :: ns => ∃ a b, h = a ++ n ++ b ∧ Appears b ns

/-- `OllamaLlamaIndexClient.generate`: run the completion call; any
exception is caught and rendered as
`"Error communicating with Ollama via LlamaIndex: …"`, so the method
always returns a plain string. -/
def generate (env : Env) (model prompt : String) : String :=
  match env.acomplete model prompt with
  | .ok response => response
  | .error e => "Error communicating with Ollama via LlamaIndex: " ++ e

/-- The flattening `"\n".join(f"{msg['role']}: {msg['content']}" …)` used by
`OllamaLlamaIndexClient.chat`. -/
def chatFlatten (messages : List (String × String)) : String :=
  String.intercalate "\n" (messages.map (fun msg => msg.1 ++ ": " ++ msg.2))

/-- `OllamaLlamaIndexClient.chat`: flatten the message list to one prompt,
submit it to the completion call (the trace records the submitted prompt),
catching exceptions as an error string. -/
def chat (env : Env) (model : String) (messages : List (String × String)) :
    String × List String :=
  let prompt := chatFlatten messages
  match env.acomplete model prompt with
  | .ok response => (response, [prompt])
  | .error e => ("Error in chat with Ollama via LlamaIndex: " ++ e, [prompt])

/-- `OllamaLlamaIndexClient.list_models`: on any exception from the HTTP
request the method logs and returns the empty list. -/
def list_models (env : Env) : List String :=
  match env.httpTags with
  | .ok models => models
  | .error _ => []

/-- Tool `list_ollama_models()`.  `list_models` never raises, so the
handler's own `except` branch (`"Error listing models: …"`) cannot run. -/
def list_ollama_models (env : Env) : String :=
  match list_models env with
  | [] => "No models found. Make sure Ollama is running and has models installed."
  | models =>
      "Available Ollama models:\n"
        ++ String.intercalate "\n" (models.map (fun m => "- " ++ m))

/-- Tool `create_table(table_name, schema_sql)`.  The trace lists the SQL
texts handed to `execute_write`. -/
def create_table (env : Env) (table_name schema_sql : String) :
    String × List String :=
  if ¬ createTableGate schema_sql then
    ("Error: Only CREATE TABLE statements are allowed.", [])
  else
    match env.dbWrite schema_sql with
    | .ok _ => ("Table '" ++ table_name ++ "' created successfully!", [schema_sql])
    | .error e => ("Error creating table: " ++ e, [schema_sql])

/-- The prompt of `chat_with_context`: `message` unchanged when `context`
is empty (Python truthiness of the string), else the
`Context: …\n\nUser: …\n\nAssistant:` template. -/
def chat_context_prompt (message context : String) : String :=
  if context = "" then message
  else "Context: " ++ context ++ "\n\nUser: " ++ message ++ "\n\nAssistant:"

/-- Tool `chat_with_context(message, context, model)`.  The trace records
the prompt handed to the LLM client. -/
def chat_with_context (env : Env) (message context model : String) :
    String × List String :=
  let full_prompt := chat_context_prompt message context
  (generate env model full_prompt, [full_prompt])

/-- Tool `chat_with_ollama(prompt, model)`: the body only calls
`generate`, which returns normally, so the `except` branch
(`"Error communicating with Ollama: …"`) is dead; the `Except` match
mirrors the `try`/`except` structure. -/
def chat_with_ollama (env : Env) (prompt model : String) : String :=
  match (pure (generate env model prompt) : Except String String) with
  | .ok response => response
  | .error e => "Error communicating with Ollama: " ++ e

/-- Python dict subscription `row[key]`: a missing key raises `KeyError`,
whose message is the quoted key. -/
def rowGet (row : Row) (key : String) : Except String String :=
  match List.lookup key row with
  | some v => .ok v
  | none => .error ("'" ++ key ++ "'")

/-- The table-listing query issued by `get_database_schema` and
`analyze_database_with_llamaindex`. -/
def tablesQuery : String := "SELECT name FROM sqlite_master WHERE type='table'"

/-- The sampling query `f"SELECT * FROM {t} LIMIT {k}"` of the analysis tools. -/
def selectLimitQuery (t : String) (k : Nat) : String :=
  "SELECT * FROM " ++ t ++ " LIMIT " ++ toString k

/-- The database honours `LIMIT`: a `SELECT * FROM t LIMIT k` query returns
at most `k` rows.  (A property of the SQLite collaborator, assumed where a
row-count bound is claimed.) -/
def LimitRespecting (db : String → Except String (List Row)) : Prop :=
  ∀ t k rows, db (selectLimitQuery t k) = .ok rows → rows.length ≤ k

/-- The `try` body of `get_database_schema`: list the tables, and for each
table collect `PRAGMA table_info` and the `COUNT(*)` row count (`0` when
the count query returns no row), then render the mapping with
`json.dumps`. -/
def get_database_schema_body (env : Env) : Except String String := do
  let tables ← env.dbRead tablesQuery
  let infos ← tables.mapM (fun trow => do
    let table_name ← rowGet trow "name"
    let schema ← env.dbRead ("PRAGMA table_info(" ++ table_name ++ ")")
    let count_result ← env.dbRead ("SELECT COUNT(*) as count FROM " ++ table_name)
    let row_count ←
      match count_result with
      | [] => pure "0"
      | r :: _ => rowGet r "count"
    pure (table_name, schema, row_count))
  pure (env.dumpSchemaInfo infos)

/-- Tool `get_database_schema()`. -/
def get_database_schema (env : Env) : String :=
  match get_database_schema_body env with
  | .ok s => s
  | .error e => "Error getting database schema: " ++ e

/-- The `all_data` loop of `analyze_database_with_llamaindex`: per table,
the rows of a `LIMIT 5` sample, in table order; the first exception
aborts the loop. -/
def buildAllData (env : Env) : List Row → Except String (List (String × List Row))
  | [] => .ok []
  | trow :: rest =>
    match rowGet trow "name" with
    | .error e => .error e
    | .ok table_name =>
      match env.dbRead (selectLimitQuery table_name 5) with
      | .error e => .error e
      | .ok sample =>
        match buildAllData env rest with
        | .error e => .error e
        | .ok tail => .ok ((table_name, sample) :: tail)

/- The literal chunks of the triple-quoted f-string templates of
`server.py`, byte for byte (the 8-space indentation and trailing spaces of
the source lines included). -/

def analyzeTableP0 : String :=
  "\n        You are a data analyst. I have a database table called '"

def analyzeTableP1 : String :=
  "' with the following schema:\n        "

def analyzeTableP2 : String :=
  "\n        \n        Here's a sample of the data:\n        "

def analyzeTableP3 : String :=
  "\n        \n        Question: "

def analyzeTableP4 : String :=
  "\n        \n        Please provide insights and analysis based on this data. If you need to suggest SQL queries, make sure they are SELECT queries only.\n        "

/-- The prompt of `analyze_data_with_llm`. -/
def analyze_table_prompt (table_name schemaJ dataJ question : String) : String :=
  analyzeTableP0 ++ table_name ++ analyzeTableP1 ++ schemaJ
    ++ analyzeTableP2 ++ dataJ ++ analyzeTableP3 ++ question ++ analyzeTableP4

/-- Tool `analyze_data_with_llm(table_name, question, model)`.  The trace
records the prompt handed to the LLM; a database exception is caught as
`"Error analyzing data with LLM: …"` before any LLM call. -/
def analyze_data_with_llm (env : Env) (table_name question model : String) :
    String × List String :=
  match env.dbRead ("PRAGMA table_info(" ++ table_name ++ ")") with
  | .error e => ("Error analyzing data with LLM: " ++ e, [])
  | .ok _schema_results =>
    match env.dbRead (selectLimitQuery table_name 10) with
    | .error e => ("Error analyzing data with LLM: " ++ e, [])
    | .ok data_results =>
      let prompt := analyze_table_prompt table_name
        (env.dumpRows _schema_results) (env.dumpRows data_results) question
      (generate env model prompt, [prompt])

def dbCtxP0 : String := "\n        Database Schema:\n        "

def dbCtxP1 : String := "\n        \n        Sample Data:\n        "

def dbCtxP2 : String := "\n        "

/-- The `context` block of `analyze_database_with_llamaindex`. -/
def dbContext (schema_info dataJ : String) : String :=
  dbCtxP0 ++ schema_info ++ dbCtxP1 ++ dataJ ++ dbCtxP2

def analyzeDbP0 : String :=
  "\n        You are a database analyst with access to a SQLite database. \n        \n        "

def analyzeDbP1 : String :=
  "\n        \n        Question: "

def analyzeDbP2 : String :=
  "\n        \n        Please provide a comprehensive analysis. If you suggest SQL queries, ensure they are SELECT statements only.\n        Include insights, patterns, and recommendations based on the data.\n        "

/-- The prompt of `analyze_database_with_llamaindex`. -/
def analyze_db_prompt (context question : String) : String :=
  analyzeDbP0 ++ context ++ analyzeDbP1 ++ question ++ analyzeDbP2

/-- Tool `analyze_database_with_llamaindex(question, model)`. -/
def analyze_database_with_llamaindex (env : Env) (question model : String) :
    String × List String :=
  let schema_info := get_database_schema env
  match env.dbRead tablesQuery with
  | .error e => ("Error analyzing database with LlamaIndex: " ++ e, [])
  | .ok tables =>
    match buildAllData env tables with
    | .error e => ("Error analyzing database with LlamaIndex: " ++ e, [])
    | .ok all_data =>
      let context := dbContext schema_info (env.dumpTables all_data)
      let prompt := analyze_db_prompt context question
      (generate env model prompt, [prompt])

/-- The response post-processing of `generate_sql_with_llamaindex`:
`sql_query.strip()`, then `sql_query[6:-3].strip()` under a leading
"```sql", else `sql_query[3:-3].strip()` under a leading "```",
else unchanged. -/
def strip_code_fence (s : String) : String :=
  let sql_query := pyStrip s
  if pyStartsWith sql_query "```sql" then pyStrip (pySliceTo sql_query 6 3)
  else if pyStartsWith sql_query "```" then pyStrip (pySliceTo sql_query 3 3)
  else sql_query

/-- The fence-stripping algorithm as the spec states it: trim; on the
literal SQL fence marker remove the fixed-length opening marker and the
fixed-length closing fence and trim again; on a generic fence marker the
same with the generic marker's length; otherwise the trimmed string
unchanged. -/
def strip_code_fence_spec (s : String) : String :=
  let t := pyStrip s
  if pyStartsWith t "```sql" then pyStrip (pySliceTo t ("```sql").length ("```").length)
  else if pyStartsWith t "```" then pyStrip (pySliceTo t ("```").length ("```").length)
  else t

def genSqlP0 : String :=
  "\n        You are a SQL expert. Given the following database schema, generate a SQL query based on the user's description.\n        \n        Database Schema:\n        "

def genSqlP1 : String :=
  "\n        \n        User Request: "

def genSqlP2 : String :=
  "\n        \n        Generate only a SELECT SQL query that fulfills the request. Do not include explanations, just the SQL query.\n        Ensure the query is safe and only uses SELECT statements.\n        "

/-- The prompt of `generate_sql_with_llamaindex`. -/
def gen_sql_prompt (schema_info description : String) : String :=
  genSqlP0 ++ schema_info ++ genSqlP1 ++ description ++ genSqlP2

/-- Tool `generate_sql_with_llamaindex(description, model)`.  The trace
records the prompt handed to the LLM. -/
def generate_sql_with_llamaindex (env : Env) (description model : String) :
    String × List String :=
  let schema_info := get_database_schema env
  let prompt := gen_sql_prompt schema_info description
  let sql_query := generate env model prompt
  let cleaned := strip_code_fence sql_query
  ("Generated SQL Query:\n" ++ cleaned
     ++ "\n\nTo execute this query, use the query_database tool.", [prompt])

/-- A concrete environment for evaluations: an empty database, a
successful LLM echoing "ok", no models, and trivial JSON renderers. -/
def envT : Env :=
  { dbRead := fun _ => .ok []
    dbWrite := fun _ => .ok 0
    acomplete := fun _ _ => .ok "ok"
    httpTags := .ok []
    dumpRows := fun _ => "[]"
    dumpTables := fun _ => "{}"
    dumpSchemaInfo := fun _ => "{}" }

/-- A concrete environment whose database, LLM and tag collaborators all
raise. -/
def envDown : Env :=
  { envT with
    dbRead := fun _ => .error "db down"
    acomplete := fun _ _ => .error "llm down"
    httpTags := .error "net down" }

/-- A concrete environment whose LLM completion call raises. -/
def envBoom : Env :=
  { envT with acomplete := fun _ _ => .error "boom" }

/-- A concrete environment whose tag endpoint raises a network error. -/
def envNetFail : Env :=
  { envT with httpTags := .error "Connection refused" }

theorem strAppend_assoc (a b c : String) : (a ++ b) ++ c = a ++ (b ++ c) := by
  apply String.ext
  simp [String.data_append, List.append_assoc]

theorem strEmpty_append (s : String) : "" ++ s = s := by
  apply String.ext
  simp [String.data_append]

theorem strAppend_empty (s : String) : s ++ "" = s := by
  apply String.ext
  simp [String.data_append]

theorem appears_nil (h : String) : Appears h [] := trivial

theorem appears_cons {b : String} {ns : List String} (a n : String)
    (hb : Appears b ns) : Appears (a ++ n ++ b) (n :: ns) :=
  ⟨a, b, rfl, hb⟩

/-- C1: the read-query tool forwards `s` to the database exactly when
`s.strip().upper()` starts with `"SELECT"`; every other string yields the
fixed rejection string and no database call; the gate accepts
`"SELECT 1; DROP TABLE users"`, and the accepted string is forwarded
verbatim (the trace holds `s` itself, not a rewritten form). -/
theorem query_database_gate (env : Env) (s : String) :
    ((query_database env s).2 = [s] ↔ selectGate s = true)
    ∧ (selectGate s = false →
        query_database env s =
          ("Error: Only SELECT queries are allowed for safety reasons.", []))
    ∧ selectGate "SELECT 1; DROP TABLE users" = true := by
  refine ⟨?_, ?_, by decide⟩
  · unfold query_database
    constructor
    · intro h
      by_contra hg
      simp [eq_false_of_ne_true hg] at h
    · intro hg
      simp only [hg, not_true_eq_false, if_false]
      match env.dbRead s with
      | .error e => rfl
      | .ok results =>
        by_cases hr : results.isEmpty <;> simp [hr]
  · intro hg
    unfold query_database
    simp [hg]

/-- Witness for `query_database_gate`: a concrete rejected input. -/
theorem query_database_gate_witness :
    selectGate "  DELETE FROM users" = false
    ∧ query_database envT "  DELETE FROM users" =
        ("Error: Only SELECT queries are allowed for safety reasons.", []) :=
  ⟨by decide, (query_database_gate envT "  DELETE FROM users").2.1 (by decide)⟩

/-- C2: the post-processing of `generate_sql_with_llamaindex` is exactly the
fixed-offset fence-stripping algorithm of the spec (trim; slice `[6:-3]`
under a leading "```sql"; slice `[3:-3]` under a leading "```"; otherwise
unchanged), the tool's reply embeds its output, a well-formed fenced block
yields the bare SQL, plain text is unchanged, and a missing closing fence
drops the last three characters ("SELECT 99" loses " 99"). -/
theorem strip_code_fence_spec_correct :
    (∀ s, strip_code_fence s = strip_code_fence_spec s)
    ∧ (∀ env d m, (generate_sql_with_llamaindex env d m).1
        = "Generated SQL Query:\n"
          ++ strip_code_fence (generate env m (gen_sql_prompt (get_database_schema env) d))
          ++ "\n\nTo execute this query, use the query_database tool.")
    ∧ strip_code_fence "```sql\nSELECT 1\n```" = "SELECT 1"
    ∧ strip_code_fence "plain text" = "plain text"
    ∧ strip_code_fence "```sql\nSELECT 99" = "SELECT" := by
  refine ⟨fun s => rfl, fun env d m => rfl, by decide, by decide, by decide⟩

/-- C3: `create_table` rejects every `schema_sql` whose trimmed-uppercased
form does not start with "CREATE TABLE" with the fixed message (which
contains "Only CREATE TABLE statements are allowed") and no database call;
every accepted statement is handed to the write path; the gate accepts
"CREATE TABLE t (id INTEGER)" and rejects "DROP TABLE t". -/
theorem create_table_only_create (env : Env) (t s : String) :
    (createTableGate s = false →
      create_table env t s = ("Error: Only CREATE TABLE statements are allowed.", [])
      ∧ Appears "Error: Only CREATE TABLE statements are allowed."
          ["Only CREATE TABLE statements are allowed"])
    ∧ (createTableGate s = true → (create_table env t s).2 = [s])
    ∧ createTableGate "CREATE TABLE t (id INTEGER)" = true
    ∧ createTableGate "DROP TABLE t" = false := by
  refine ⟨fun hg => ⟨?_, "Error: ", ".", by decide, trivial⟩, fun hg => ?_, by decide, by decide⟩
  · simp [create_table, hg]
  · simp only [create_table, hg, not_true_eq_false, if_false]
    cases env.dbWrite s <;> simp

/-- Witness for `create_table_only_create`: both gate branches at concrete
inputs. -/
theorem create_table_only_create_witness :
    createTableGate "DROP TABLE t" = false
    ∧ create_table envT "t" "DROP TABLE t"
        = ("Error: Only CREATE TABLE statements are allowed.", [])
    ∧ createTableGate "CREATE TABLE t (id INTEGER)" = true
    ∧ (create_table envT "t" "CREATE TABLE t (id INTEGER)").2
        = ["CREATE TABLE t (id INTEGER)"] :=
  ⟨by decide,
   ((create_table_only_create envT "t" "DROP TABLE t").1 (by decide)).1,
   by decide,
   (create_table_only_create envT "t" "CREATE TABLE t (id INTEGER)").2.1 (by decide)⟩

/-- C4: `chat_with_context` sends `message` itself to the LLM when
`context` is empty; with a non-empty context it sends the
`Context:`/`User:`/`Assistant:` template, whose text contains
"Context: <context>" and then "User: <message>", in that order;
`chat_context_prompt "Hello" "" = "Hello"`. -/
theorem chat_with_context_shape (env : Env) (message context model : String) :
    (context = "" → (chat_with_context env message context model).2 = [message])
    ∧ (context ≠ "" →
        (chat_with_context env message context model).2
          = ["Context: " ++ context ++ "\n\nUser: " ++ message ++ "\n\nAssistant:"]
        ∧ Appears ("Context: " ++ context ++ "\n\nUser: " ++ message ++ "\n\nAssistant:")
            ["Context: " ++ context, "User: " ++ message])
    ∧ chat_context_prompt "Hello" "" = "Hello" := by
  refine ⟨fun h => ?_, fun h => ⟨?_, ?_⟩, by decide⟩
  · simp [chat_with_context, chat_context_prompt, h]
  · simp [chat_with_context, chat_context_prompt, h]
  · refine ⟨"", "\n\nUser: " ++ message ++ "\n\nAssistant:", ?_,
      "\n\n", "\n\nAssistant:", ?_, trivial⟩
    · simp [strEmpty_append, strAppend_assoc]
    · simp only [← strAppend_assoc]
      congr 2

/-- Witness for `chat_with_context_shape`: both context branches at
concrete inputs. -/
theorem chat_with_context_shape_witness :
    (chat_with_context envT "Hello" "" "m").2 = ["Hello"]
    ∧ ("X" : String) ≠ ""
    ∧ (chat_with_context envT "Hello" "X" "m").2
        = ["Context: " ++ "X" ++ "\n\nUser: " ++ "Hello" ++ "\n\nAssistant:"] :=
  ⟨(chat_with_context_shape envT "Hello" "" "m").1 rfl,
   by decide,
   ((chat_with_context_shape envT "Hello" "X" "m").2.1 (by decide)).1⟩

theorem strHead_ne {a b : String} (h : a.data.head? ≠ b.data.head?) : a ≠ b :=
  fun e => h (congrArg (fun t : String => t.data.head?) e)

theorem error_ne_success (e n : String) :
    ("Error creating table: " ++ e) ≠ ("Table '" ++ n ++ "' created successfully!") := by
  intro h
  have h2 : some 'E' = some 'T' := congrArg (fun t : String => t.data.head?) h
  simp at h2

theorem reject_ne_success (n : String) :
    ("Error: Only CREATE TABLE statements are allowed." : String)
      ≠ ("Table '" ++ n ++ "' created successfully!") := by
  intro h
  have h2 : some 'E' = some 'T' := congrArg (fun t : String => t.data.head?) h
  simp at h2

/-- C5 counterexample: on a network failure of the tag endpoint,
`list_ollama_models` returns the generic "No models found…" message — the
very string of the empty-model-list success case — which is not prefixed
by any of the claimed category labels. -/
theorem list_ollama_models_network_failure :
    list_ollama_models envNetFail
      = "No models found. Make sure Ollama is running and has models installed."
    ∧ list_ollama_models envNetFail = list_ollama_models envT
    ∧ pyStartsWith (list_ollama_models envNetFail) "Error" = false
    ∧ pyStartsWith (list_ollama_models envNetFail) "Database error:" = false := by
  refine ⟨rfl, rfl, by decide, by decide⟩

/-- C5 (amended): no collaborator exception escapes a tool handler; the
database and LLM failure paths return category-labelled strings
("Database error:", "Error analyzing data with LLM:",
"Error communicating with Ollama via LlamaIndex:",
"Error analyzing database with LlamaIndex:"), while `list_ollama_models`
maps a network failure to the unlabelled "No models found…" message. -/
theorem tool_error_labels :
    (∀ env s e, selectGate s = true → env.dbRead s = .error e →
        query_database env s = ("Database error: " ++ e, [s]))
    ∧ (∀ env t q m e, env.dbRead ("PRAGMA table_info(" ++ t ++ ")") = .error e →
        analyze_data_with_llm env t q m = ("Error analyzing data with LLM: " ++ e, []))
    ∧ (∀ env m p e, env.acomplete m p = .error e →
        generate env m p = "Error communicating with Ollama via LlamaIndex: " ++ e)
    ∧ (∀ env q m e, env.dbRead tablesQuery = .error e →
        analyze_database_with_llamaindex env q m
          = ("Error analyzing database with LlamaIndex: " ++ e, []))
    ∧ (∀ env e, env.httpTags = .error e →
        list_ollama_models env
          = "No models found. Make sure Ollama is running and has models installed.") := by
  refine ⟨?_, ?_, ?_, ?_, ?_⟩
  · intro env s e hg hdb
    simp [query_database, hg, hdb]
  · intro env t q m e h
    simp [analyze_data_with_llm, h]
  · intro env m p e h
    simp [generate, h]
  · intro env q m e h
    simp [analyze_database_with_llamaindex, h]
  · intro env e h
    simp [list_ollama_models, list_models, h]

/-- Witness for `tool_error_labels`: a concrete environment whose
database, LLM and tag collaborators all raise. -/
theorem tool_error_labels_witness :
    selectGate "SELECT 1" = true
    ∧ envDown.dbRead "SELECT 1" = .error "db down"
    ∧ query_database envDown "SELECT 1" = ("Database error: db down", ["SELECT 1"])
    ∧ generate envDown "m" "p"
        = "Error communicating with Ollama via LlamaIndex: llm down"
    ∧ list_ollama_models envDown
        = "No models found. Make sure Ollama is running and has models installed." :=
  ⟨by decide, rfl,
   tool_error_labels.1 envDown "SELECT 1" "db down" (by decide) rfl,
   tool_error_labels.2.2.1 envDown "m" "p" "llm down" rfl,
   tool_error_labels.2.2.2.2 envDown "net down" rfl⟩

/-- C7: a gate-passing query whose database result is the empty row list
yields the fixed "…returned no results." reply (which contains
"no results"); a non-empty result is returned as the JSON rendering of
the rows. -/
theorem query_database_no_results (env : Env) (s : String) (rows : List Row)
    (hg : selectGate s = true) (hdb : env.dbRead s = .ok rows) :
    (rows = [] →
      (query_database env s).1 = "Query executed successfully but returned no results."
      ∧ Appears (query_database env s).1 ["no results"])
    ∧ (rows ≠ [] → (query_database env s).1 = env.dumpRows rows) := by
  constructor
  · intro h
    subst h
    have hres : (query_database env s).1
        = "Query executed successfully but returned no results." := by
      simp [query_database, hg, hdb]
    refine ⟨hres, ?_⟩
    rw [hres]
    exact ⟨"Query executed successfully but returned ", ".", by decide, trivial⟩
  · intro h
    cases rows with
    | nil => exact absurd rfl h
    | cons r rest => simp [query_database, hg, hdb]

/-- Witness for `query_database_no_results`: the empty database at a
concrete SELECT. -/
theorem query_database_no_results_witness :
    selectGate "SELECT * FROM users" = true
    ∧ envT.dbRead "SELECT * FROM users" = .ok []
    ∧ (query_database envT "SELECT * FROM users").1
        = "Query executed successfully but returned no results." :=
  ⟨by decide, rfl,
   ((query_database_no_results envT "SELECT * FROM users" [] (by decide) rfl).1 rfl).1⟩

/-- C8: `OllamaLlamaIndexClient.chat` submits to the completion call
exactly the newline-join of the "<role>: <content>" renderings of the
message list, e.g. `[("user", "Hi"), ("assistant", "Hello")]` becomes
`"user: Hi\nassistant: Hello"`. -/
theorem chat_flattens_messages (env : Env) (model : String)
    (messages : List (String × String)) :
    (chat env model messages).2
      = [String.intercalate "\n" (messages.map (fun msg => msg.1 ++ ": " ++ msg.2))]
    ∧ chatFlatten [("user", "Hi"), ("assistant", "Hello")]
        = "user: Hi\nassistant: Hello" := by
  constructor
  · unfold chat
    dsimp only
    split <;> simp [chatFlatten]
  · decide

/-- C9: the `table_name` argument of `create_table` never reaches the
database — the write trace depends only on `schema_sql` (and is `[]` or
`[schema_sql]`) — two calls differing only in `table_name` succeed or
fail together, and on success the reply interpolates `table_name`
verbatim whether or not it matches the table the SQL creates. -/
theorem create_table_name_independent (env : Env) (n1 n2 s : String) :
    (create_table env n1 s).2 = (create_table env n2 s).2
    ∧ ((create_table env n1 s).2 = [] ∨ (create_table env n1 s).2 = [s])
    ∧ ((create_table env n1 s).1 = "Table '" ++ n1 ++ "' created successfully!"
        ↔ (create_table env n2 s).1 = "Table '" ++ n2 ++ "' created successfully!")
    ∧ (∀ k : Int, createTableGate s = true → env.dbWrite s = .ok k →
        (create_table env n1 s).1 = "Table '" ++ n1 ++ "' created successfully!") := by
  refine ⟨?_, ?_, ?_, ?_⟩
  · by_cases hg : createTableGate s
    · simp only [create_table, hg, not_true_eq_false, if_false]
      cases env.dbWrite s <;> rfl
    · simp [create_table, hg]
  · by_cases hg : createTableGate s
    · simp only [create_table, hg, not_true_eq_false, if_false]
      cases env.dbWrite s <;> simp
    · simp [create_table, hg]
  · by_cases hg : createTableGate s
    · simp only [create_table, hg, not_true_eq_false, if_false]
      cases hw : env.dbWrite s with
      | ok k => simp
      | error e => exact iff_of_false (error_ne_success e n1) (error_ne_success e n2)
    · simp only [create_table, hg, not_false_eq_true, if_true]
      exact iff_of_false (reject_ne_success n1) (reject_ne_success n2)
  · intro k hg hw
    simp [create_table, hg, hw]

/-- Witness for `create_table_name_independent`: the declared table name
"foo" is interpolated although the SQL creates table "bar". -/
theorem create_table_name_independent_witness :
    createTableGate "CREATE TABLE bar (id INTEGER)" = true
    ∧ envT.dbWrite "CREATE TABLE bar (id INTEGER)" = .ok 0
    ∧ (create_table envT "foo" "CREATE TABLE bar (id INTEGER)").1
        = "Table '" ++ "foo" ++ "' created successfully!" :=
  ⟨by decide, rfl,
   (create_table_name_independent envT "foo" "x" "CREATE TABLE bar (id INTEGER)").2.2.2
     0 (by decide) rfl⟩

/-- C10: `OllamaLlamaIndexClient.generate` converts every exception of the
completion call into the
"Error communicating with Ollama via LlamaIndex: …" string, so
`chat_with_ollama` always returns `generate`'s value — its own `except`
branch ("Error communicating with Ollama: …") is unreachable, and an LLM
failure surfaces as ordinary-looking completion text. -/
theorem generate_never_raises (env : Env) (model prompt : String) :
    (∀ e, env.acomplete model prompt = .error e →
        generate env model prompt
          = "Error communicating with Ollama via LlamaIndex: " ++ e)
    ∧ chat_with_ollama env prompt model = generate env model prompt
    ∧ (∀ e, env.acomplete model prompt = .error e →
        chat_with_ollama env prompt model
          = "Error communicating with Ollama via LlamaIndex: " ++ e) := by
  refine ⟨fun e h => by simp [generate, h], rfl,
    fun e h => by simp [chat_with_ollama, generate, h, pure, Except.pure]⟩

/-- Witness for `generate_never_raises`: a concrete raising LLM
collaborator. -/
theorem generate_never_raises_witness :
    envBoom.acomplete "m" "p" = .error "boom"
    ∧ generate envBoom "m" "p"
        = "Error communicating with Ollama via LlamaIndex: " ++ "boom"
    ∧ chat_with_ollama envBoom "p" "m"
        = "Error communicating with Ollama via LlamaIndex: " ++ "boom" :=
  ⟨rfl,
   (generate_never_raises envBoom "m" "p").1 "boom" rfl,
   (generate_never_raises envBoom "m" "p").2.2 "boom" rfl⟩

theorem buildAllData_rows_le (env : Env) (hL : LimitRespecting env.dbRead) :
    ∀ tables allData, buildAllData env tables = .ok allData →
      ∀ td ∈ allData, td.2.length ≤ 5 := by
  intro tables
  induction tables with
  | nil =>
    intro allData h td hm
    simp only [buildAllData, Except.ok.injEq] at h
    subst h
    simp at hm
  | cons trow rest ih =>
    intro allData h td hm
    simp only [buildAllData] at h
    rcases h1 : rowGet trow "name" with e | table_name <;> rw [h1] at h
    · exact Except.noConfusion h
    dsimp only at h
    rcases h2 : env.dbRead (selectLimitQuery table_name 5) with e | sample <;>
      rw [h2] at h
    · exact Except.noConfusion h
    dsimp only at h
    rcases h3 : buildAllData env rest with e | tail <;> rw [h3] at h
    · exact Except.noConfusion h
    dsimp only at h
    rw [Except.ok.injEq] at h
    subst h
    rcases List.mem_cons.mp hm with hm | hm
    · subst hm
      exact hL table_name 5 sample h2
    · exact ih tail h3 td hm

/-- C6: the analysis prompts keep their sections in the fixed order —
instruction preamble (naming the table), JSON-rendered schema,
JSON-rendered sample rows, the question, the closing SELECT-only
instruction — and the sample-data block is built from a `LIMIT 10`
query for `analyze_data_with_llm` and per-table `LIMIT 5` queries for
`analyze_database_with_llamaindex`, so for a database honouring `LIMIT`
the block holds at most 10 resp. 5 rows per table.  (`analyzeTableP0 ++ t
++ analyzeTableP1` and `analyzeDbP0 ++ dbCtxP0` are the preamble texts,
`analyzeTableP4` and `analyzeDbP2` the closing SELECT-only
instructions.) -/
theorem analysis_prompt_structure (env : Env) (t q model : String) :
    (∀ schemaRows dataRows,
        env.dbRead ("PRAGMA table_info(" ++ t ++ ")") = .ok schemaRows →
        env.dbRead (selectLimitQuery t 10) = .ok dataRows →
        (analyze_data_with_llm env t q model).2
          = [analyze_table_prompt t (env.dumpRows schemaRows)
              (env.dumpRows dataRows) q]
        ∧ (LimitRespecting env.dbRead → dataRows.length ≤ 10))
    ∧ (∀ sJ dJ, Appears (analyze_table_prompt t sJ dJ q)
        [analyzeTableP0 ++ t ++ analyzeTableP1, sJ, dJ, q, analyzeTableP4])
    ∧ (∀ tables allData,
        env.dbRead tablesQuery = .ok tables →
        buildAllData env tables = .ok allData →
        (analyze_database_with_llamaindex env q model).2
          = [analyze_db_prompt
              (dbContext (get_database_schema env) (env.dumpTables allData)) q]
        ∧ (LimitRespecting env.dbRead → ∀ td ∈ allData, td.2.length ≤ 5))
    ∧ (∀ sI dJ, Appears (analyze_db_prompt (dbContext sI dJ) q)
        [analyzeDbP0 ++ dbCtxP0, sI, dJ, q, analyzeDbP2]) := by
  refine ⟨?_, ?_, ?_, ?_⟩
  · intro schemaRows dataRows h1 h2
    refine ⟨?_, fun hL => hL t 10 dataRows h2⟩
    simp [analyze_data_with_llm, h1, h2]
  · intro sJ dJ
    refine ⟨"",
      sJ ++ (analyzeTableP2 ++ (dJ ++ (analyzeTableP3 ++ (q ++ analyzeTableP4)))), ?_,
      "", analyzeTableP2 ++ (dJ ++ (analyzeTableP3 ++ (q ++ analyzeTableP4))), ?_,
      analyzeTableP2, analyzeTableP3 ++ (q ++ analyzeTableP4), ?_,
      analyzeTableP3, analyzeTableP4, ?_,
      "", "", ?_, trivial⟩
    · simp [analyze_table_prompt, strAppend_assoc, strEmpty_append]
    · simp [strEmpty_append]
    · rfl
    · rfl
    · simp [strEmpty_append, strAppend_empty]
  · intro tables allData h1 h2
    refine ⟨?_, fun hL => buildAllData_rows_le env hL tables allData h2⟩
    simp [analyze_database_with_llamaindex, h1, h2, analyze_db_prompt, dbContext]
  · intro sI dJ
    refine ⟨"",
      sI ++ (dbCtxP1 ++ (dJ ++ (dbCtxP2 ++ (analyzeDbP1 ++ (q ++ analyzeDbP2))))), ?_,
      "", dbCtxP1 ++ (dJ ++ (dbCtxP2 ++ (analyzeDbP1 ++ (q ++ analyzeDbP2)))), ?_,
      dbCtxP1, dbCtxP2 ++ (analyzeDbP1 ++ (q ++ analyzeDbP2)), ?_,
      dbCtxP2 ++ analyzeDbP1, analyzeDbP2, ?_,
      "", "", ?_, trivial⟩
    · simp [analyze_db_prompt, dbContext, strAppend_assoc, strEmpty_append]
    · simp [strEmpty_append]
    · rfl
    · simp [strAppend_assoc]
    · simp [strEmpty_append, strAppend_empty]

/-- Witness for `analysis_prompt_structure`: the empty database, where all
collaborator calls succeed with no rows. -/
theorem analysis_prompt_structure_witness :
    envT.dbRead ("PRAGMA table_info(" ++ "users" ++ ")") = .ok []
    ∧ envT.dbRead (selectLimitQuery "users" 10) = .ok []
    ∧ (analyze_data_with_llm envT "users" "q" "m").2
        = [analyze_table_prompt "users" (envT.dumpRows []) (envT.dumpRows []) "q"]
    ∧ LimitRespecting envT.dbRead
    ∧ ([] : List Row).length ≤ 10
    ∧ envT.dbRead tablesQuery = .ok []
    ∧ buildAllData envT [] = .ok []
    ∧ (analyze_database_with_llamaindex envT "q" "m").2
        = [analyze_db_prompt
            (dbContext (get_database_schema envT) (envT.dumpTables [])) "q"] := by
  have hL : LimitRespecting envT.dbRead := by
    intro t k rows h
    cases h
    simp
  refine ⟨rfl, rfl, ?_, hL, ?_, rfl, rfl, ?_⟩
  · exact ((analysis_prompt_structure envT "users" "q" "m").1 [] [] rfl rfl).1
  · exact (((analysis_prompt_structure envT "users" "q" "m").1 [] [] rfl rfl).2 hL)
  · exact ((analysis_prompt_structure envT "users" "q" "m").2.2.1 [] [] rfl rfl).1
